import Mathlib

/- Verification development for the qmicli-json repository: a shallow embedding of
   the CLI glue code (qmicli.c main file, qmicli-nas.c, qmicli-pbm.c) together with
   models, built from the specification text, of the QMI transaction-engine core
   (codec, client registry, transaction table, device session) that the CLI calls
   into through libqmi but whose implementation is not among the given sources. -/

set_option maxRecDepth 4096

/-! ## Common definitions: exit codes and a JSON value model (jansson documents) -/

def EXIT_SUCCESS : Nat := 0

def EXIT_FAILURE : Nat := 1

/-- A JSON value as built by jansson's json_pack: objects keep insertion order. -/
inductive JsonV where
  | null : JsonV
  | jbool : Bool → JsonV
  | jint : Int → JsonV
  | jnum : Rat → JsonV
  | jstr : String → JsonV
  | obj : List (String × JsonV) → JsonV
  | arr : List JsonV → JsonV

/-! ## Codec (C1)

Modelled from the spec: the Codec component (spec section 4.1) of the QMI
transaction engine is not among the given sources (the CLI delegates encoding and
decoding to libqmi).  Frames are a fixed-width header (service id, client id,
flags, transaction id, message id, payload length) followed by a TLV stream;
numeric fields are little-endian fixed width; decoding parses the header first,
validates the declared payload length against the actual received length (else
MalformedFrame), then walks TLVs, keeping every TLV - known tag or not - as
opaque raw bytes. -/

namespace QmiCodec

/-- A single type-length-value element: tag byte, then a 16-bit little-endian
length, then that many raw payload bytes. -/
structure Tlv where
  tag : Nat
  bytes : List Nat
deriving DecidableEq

/-- A wire frame: fixed-width header fields plus the ordered TLV sequence. -/
structure Frame where
  serviceId : Nat
  clientId : Nat
  flags : Nat
  transactionId : Nat
  messageId : Nat
  tlvs : List Tlv
deriving DecidableEq

/-- Well-formedness of a TLV: tag fits one byte, payload fits the 16-bit length
field, payload entries are bytes. -/
def Tlv.wf (t : Tlv) : Prop :=
  t.tag < 256 ∧ t.bytes.length < 65536 ∧ ∀ b ∈ t.bytes, b < 256

instance (t : Tlv) : Decidable t.wf := by unfold Tlv.wf; infer_instance

/-- Little-endian 16-bit serialization. -/
def encodeU16 (n : Nat) : List Nat := [n % 256, n / 256 % 256]

/-- Little-endian 16-bit deserialization. -/
def decodeU16 (lo hi : Nat) : Nat := lo + 256 * hi

def encodeTlv (t : Tlv) : List Nat :=
  t.tag % 256 :: encodeU16 t.bytes.length ++ t.bytes

def encodeTlvs : List Tlv → List Nat
  | [] => []
  | t :: ts => encodeTlv t ++ encodeTlvs ts

inductive CodecError where
  | malformedFrame : CodecError
deriving DecidableEq

/-- Walk the TLV stream; a tag whose meaning is unknown is still kept verbatim as
raw bytes (forward compatibility) - decoding fails only on truncated structure. -/
def decodeTlvs : List Nat → Except CodecError (List Tlv)
  | [] => Except.ok []
  | tag :: lo :: hi :: rest =>
      if decodeU16 lo hi ≤ rest.length then
        match decodeTlvs (rest.drop (decodeU16 lo hi)) with
        | Except.ok ts => Except.ok (Tlv.mk tag (rest.take (decodeU16 lo hi)) :: ts)
        | Except.error e => Except.error e
      else
        Except.error CodecError.malformedFrame
  | _ => Except.error CodecError.malformedFrame
termination_by l => l.length
decreasing_by simp [List.length_drop]; omega

/-- Serialize the header (fixed width, little-endian) followed by the TLV payload,
with the declared payload length equal to the actual payload size. -/
def encode (f : Frame) : List Nat :=
  let payload := encodeTlvs f.tlvs
  f.serviceId % 256 :: f.clientId % 256 :: f.flags % 256 ::
    (encodeU16 f.transactionId ++ encodeU16 f.messageId ++
     encodeU16 payload.length ++ payload)

/-- Parse the fixed-width header, validate the declared payload length against the
received length (else MalformedFrame), then walk the TLVs. -/
def decode (bytes : List Nat) : Except CodecError Frame :=
  match bytes with
  | s :: c :: fl :: t0 :: t1 :: m0 :: m1 :: l0 :: l1 :: rest =>
      if decodeU16 l0 l1 = rest.length then
        match decodeTlvs rest with
        | Except.ok ts =>
            Except.ok (Frame.mk s c fl (decodeU16 t0 t1) (decodeU16 m0 m1) ts)
        | Except.error e => Except.error e
      else
        Except.error CodecError.malformedFrame
  | _ => Except.error CodecError.malformedFrame

/-- Well-formedness of a frame: header fields fit their fixed widths, the encoded
payload fits the 16-bit length field, and every TLV is well formed. -/
def Frame.wf (f : Frame) : Prop :=
  f.serviceId < 256 ∧ f.clientId < 256 ∧ f.flags < 256 ∧
  f.transactionId < 65536 ∧ f.messageId < 65536 ∧
  (encodeTlvs f.tlvs).length < 65536 ∧ ∀ t ∈ f.tlvs, t.wf

instance (f : Frame) : Decidable f.wf := by unfold Frame.wf; infer_instance

theorem decodeU16_encodeU16 (n : Nat) (h : n < 65536) :
    decodeU16 (n % 256) (n / 256 % 256) = n := by
  simp only [decodeU16]
  omega

theorem take_append_self (a b : List Nat) : (a ++ b).take a.length = a := by
  induction a with
  | nil => rfl
  | cons x xs ih => simp [ih]

theorem drop_append_self (a b : List Nat) : (a ++ b).drop a.length = b := by
  induction a with
  | nil => rfl
  | cons x xs ih => simp [ih]

theorem decodeTlvs_encodeTlvs :
    ∀ ts : List Tlv, (∀ t ∈ ts, t.wf) → decodeTlvs (encodeTlvs ts) = Except.ok ts := by
  intro ts
  induction ts with
  | nil => intro _; simp [encodeTlvs, decodeTlvs]
  | cons t ts ih =>
      intro h
      obtain ⟨htag, hlen, -⟩ := h t (List.mem_cons_self t ts)
      have hrest : ∀ u ∈ ts, u.wf := fun u hu => h u (List.mem_cons_of_mem _ hu)
      have htag' : t.tag % 256 = t.tag := Nat.mod_eq_of_lt htag
      have henc : encodeTlvs (t :: ts) =
          t.tag :: (t.bytes.length % 256) :: (t.bytes.length / 256 % 256) ::
            (t.bytes ++ encodeTlvs ts) := by
        simp [encodeTlvs, encodeTlv, encodeU16, htag']
      rw [henc, decodeTlvs, decodeU16_encodeU16 _ hlen]
      have hle : t.bytes.length ≤ (t.bytes ++ encodeTlvs ts).length := by
        simp [List.length_append]
      rw [if_pos hle, drop_append_self, ih hrest, take_append_self]

/-- Claim C1: for every well-formed frame, decoding the encoding yields the frame
back, and every TLV of the frame - in particular one whose tag is unknown to any
message catalog - is preserved verbatim as opaque raw bytes through decode rather
than causing a decode error. -/
theorem C1_codec_roundtrip (f : Frame) (h : f.wf) :
    decode (encode f) = Except.ok f ∧
    (∀ t ∈ f.tlvs, ∃ g, decode (encode f) = Except.ok g ∧ t ∈ g.tlvs) ∧
    decode (encode f) ≠ Except.error CodecError.malformedFrame := by
  obtain ⟨sv, cl, fl, tx, mg, ts⟩ := f
  obtain ⟨hsv, hcl, hfl, htx, hmg, hpay, htlvs⟩ := h
  have hsv' : sv % 256 = sv := Nat.mod_eq_of_lt hsv
  have hcl' : cl % 256 = cl := Nat.mod_eq_of_lt hcl
  have hfl' : fl % 256 = fl := Nat.mod_eq_of_lt hfl
  have hmain : decode (encode (Frame.mk sv cl fl tx mg ts)) =
      Except.ok (Frame.mk sv cl fl tx mg ts) := by
    have henc : encode (Frame.mk sv cl fl tx mg ts) =
        sv :: cl :: fl :: (tx % 256) :: (tx / 256 % 256) ::
          (mg % 256) :: (mg / 256 % 256) ::
          ((encodeTlvs ts).length % 256) :: ((encodeTlvs ts).length / 256 % 256) ::
          encodeTlvs ts := by
      simp [encode, encodeU16, hsv', hcl', hfl']
    rw [henc, decode, decodeU16_encodeU16 _ hpay, if_pos rfl,
        decodeTlvs_encodeTlvs ts htlvs, decodeU16_encodeU16 _ htx,
        decodeU16_encodeU16 _ hmg]
  refine ⟨hmain, fun t ht => ⟨Frame.mk sv cl fl tx mg ts, hmain, ht⟩, ?_⟩
  rw [hmain]
  intro hcontra
  exact Except.noConfusion hcontra

/-- A concrete frame, carrying a TLV whose tag 0xA0 belongs to no known catalog. -/
def frameExample : Frame :=
  Frame.mk 3 1 0 257 32 [Tlv.mk 16 [2, 0], Tlv.mk 160 [1, 2, 3]]

theorem C1_codec_roundtrip_witness :
    frameExample.wf ∧
      (decode (encode frameExample) = Except.ok frameExample ∧
       (∀ t ∈ frameExample.tlvs,
          ∃ g, decode (encode frameExample) = Except.ok g ∧ t ∈ g.tlvs) ∧
       decode (encode frameExample) ≠ Except.error CodecError.malformedFrame) :=
  ⟨by decide, C1_codec_roundtrip frameExample (by decide)⟩

end QmiCodec

/-! ## Transaction Table (C2)

Modelled from the spec: the Transaction Table component (spec section 4.4) of the
QMI transaction engine is not among the given sources.  Transaction ids are
assigned by incrementing a per-(service, client) counter with wraparound at the
16-bit boundary, skipping any id still outstanding.  The state below is the
table of one (service, client) pair. -/

namespace TransactionTable

/-- Per-(service, client) assignment state: the id counter and the ids of the
currently outstanding (in-flight, not yet resolved) transactions. -/
structure TableState where
  counter : Nat
  outstanding : List Nat
deriving DecidableEq

/-- Search for the next id: repeatedly increment the counter modulo 2^16 and
skip any candidate that is still outstanding.  Fuel bounds the search at one
full 16-bit cycle. -/
def findFreeId (c : Nat) (outstanding : List Nat) : Nat → Option Nat
  | 0 => none
  | fuel + 1 =>
      if (c + 1) % 65536 ∈ outstanding then
        findFreeId ((c + 1) % 65536) outstanding fuel
      else
        some ((c + 1) % 65536)

/-- Submit one transaction: assign the next free id (none if the table is full)
and record it as outstanding. -/
def submit (s : TableState) : Option (Nat × TableState) :=
  match findFreeId s.counter s.outstanding 65536 with
  | some i => some (i, TableState.mk i (i :: s.outstanding))
  | none => none

/-- One submission step (identity when the table is full). -/
def step (s : TableState) : TableState :=
  match submit s with
  | some p => p.2
  | none => s

/-- n sequential submissions. -/
def iterate (s : TableState) : Nat → TableState
  | 0 => s
  | n + 1 => step (iterate s n)

/-- A freshly created table: counter at zero, nothing outstanding. -/
def initState : TableState := TableState.mk 0 []

/-- Validity of a table state: outstanding ids are pairwise distinct 16-bit
values. -/
def TableState.valid (s : TableState) : Prop :=
  s.outstanding.Nodup ∧ ∀ x ∈ s.outstanding, x < 65536

theorem findFreeId_spec {c : Nat} {out : List Nat} :
    ∀ {fuel i : Nat}, findFreeId c out fuel = some i → i ∉ out ∧ i < 65536 := by
  intro fuel
  induction fuel generalizing c with
  | zero => intro i h; simp [findFreeId] at h
  | succ fuel ih =>
      intro i h
      rw [findFreeId] at h
      by_cases hm : (c + 1) % 65536 ∈ out
      · rw [if_pos hm] at h
        exact ih h
      · rw [if_neg hm] at h
        cases h
        exact ⟨hm, Nat.mod_lt _ (by omega)⟩

theorem findFreeId_isSome {c : Nat} {out : List Nat} :
    ∀ {fuel : Nat}, (∃ k, k < fuel ∧ (c + 1 + k) % 65536 ∉ out) →
      (findFreeId c out fuel).isSome := by
  intro fuel
  induction fuel generalizing c with
  | zero => intro ⟨k, hk, _⟩; omega
  | succ fuel ih =>
      intro ⟨k, hk, hfree⟩
      rw [findFreeId]
      by_cases hm : (c + 1) % 65536 ∈ out
      · rw [if_pos hm]
        apply ih
        have hk0 : k ≠ 0 := by
          intro h0
          subst h0
          simp at hfree
          exact hfree hm
        refine ⟨k - 1, by omega, ?_⟩
        have : ((c + 1) % 65536 + 1 + (k - 1)) % 65536 = (c + 1 + k) % 65536 := by
          omega
        rw [this]
        exact hfree
      · rw [if_neg hm]
        rfl

/-- Pigeonhole: while fewer than 2^16 ids are outstanding, one full wrap of the
counter always meets a free id. -/
theorem exists_free_id {c : Nat} {out : List Nat} (hlen : out.length < 65536) :
    ∃ k, k < 65536 ∧ (c + 1 + k) % 65536 ∉ out := by
  by_contra hall
  push_neg at hall
  have hsub : (Finset.range 65536).image (fun k => (c + 1 + k) % 65536) ⊆
      out.toFinset := by
    intro x hx
    rw [Finset.mem_image] at hx
    obtain ⟨k, hk, rfl⟩ := hx
    rw [Finset.mem_range] at hk
    exact List.mem_toFinset.mpr (hall k hk)
  have hinj : Set.InjOn (fun k => (c + 1 + k) % 65536)
      ((Finset.range 65536) : Finset Nat) := by
    intro a ha b hb hab
    simp only [Finset.coe_range, Set.mem_Iio] at ha hb
    simp only at hab
    omega
  have hcard : ((Finset.range 65536).image (fun k => (c + 1 + k) % 65536)).card
      = 65536 := by
    rw [Finset.card_image_of_injOn hinj, Finset.card_range]
  have hle := Finset.card_le_card hsub
  rw [hcard] at hle
  have := List.toFinset_card_le out
  omega

theorem submit_fresh {s : TableState} {i : Nat} {s' : TableState}
    (h : submit s = some (i, s')) :
    i ∉ s.outstanding ∧ i < 65536 ∧ s'.outstanding = i :: s.outstanding := by
  unfold submit at h
  cases hf : findFreeId s.counter s.outstanding 65536 with
  | none => rw [hf] at h; cases h
  | some j =>
      rw [hf] at h
      cases h
      obtain ⟨hnm, hlt⟩ := findFreeId_spec hf
      exact ⟨hnm, hlt, rfl⟩

theorem submit_isSome {s : TableState}
    (hlen : s.outstanding.length < 65536) : (submit s).isSome := by
  unfold submit
  have := @findFreeId_isSome s.counter s.outstanding 65536 (exists_free_id hlen)
  cases hf : findFreeId s.counter s.outstanding 65536 with
  | none => rw [hf] at this; simp at this
  | some j => rfl

theorem iterate_valid :
    ∀ n : Nat, n ≤ 65536 →
      (iterate initState n).valid ∧ (iterate initState n).outstanding.length = n := by
  intro n
  induction n with
  | zero => intro _; exact ⟨⟨List.nodup_nil, by simp [iterate, initState]⟩, rfl⟩
  | succ n ih =>
      intro hn
      obtain ⟨⟨hnd, hlt⟩, hlen⟩ := ih (by omega)
      have hsome := @submit_isSome (iterate initState n) (by omega)
      cases hs : submit (iterate initState n) with
      | none => rw [hs] at hsome; simp at hsome
      | some p =>
          obtain ⟨i, s'⟩ := p
          obtain ⟨hfresh, hi, hout⟩ := submit_fresh hs
          have hstep : iterate initState (n + 1) = s' := by
            simp [iterate, step, hs]
          rw [hstep]
          unfold TableState.valid
          rw [hout]
          refine ⟨⟨List.nodup_cons.mpr ⟨hfresh, hnd⟩, ?_⟩, by simp [hlen]⟩
          intro x hx
          rcases List.mem_cons.mp hx with h | h
          · omega
          · exact hlt x h

/-- Claim C2: every id handed out by submit is outside the outstanding set of its
(service, client) table at the moment of assignment, and 65536 sequential
submissions starting from a fresh table all succeed and produce pairwise
distinct ids (the counter wraps at the 16-bit boundary, skipping outstanding
ids). -/
theorem C2_transaction_id_unique :
    (∀ (s : TableState) (i : Nat) (s' : TableState),
       submit s = some (i, s') →
         i ∉ s.outstanding ∧ s'.outstanding = i :: s.outstanding) ∧
    (∀ n : Nat, n ≤ 65536 →
       (iterate initState n).outstanding.Nodup ∧
       (iterate initState n).outstanding.length = n) := by
  constructor
  · intro s i s' h
    obtain ⟨hf, _, ho⟩ := submit_fresh h
    exact ⟨hf, ho⟩
  · intro n hn
    obtain ⟨⟨hnd, _⟩, hlen⟩ := iterate_valid n hn
    exact ⟨hnd, hlen⟩

theorem C2_transaction_id_unique_witness :
    ((3 : Nat) ∉ [1, 2] ∧
      (TableState.mk 3 [3, 1, 2]).outstanding = 3 :: [1, 2]) ∧
    ((iterate initState 65536).outstanding.Nodup ∧
      (iterate initState 65536).outstanding.length = 65536) :=
  ⟨C2_transaction_id_unique.1 (TableState.mk 2 [1, 2]) 3 (TableState.mk 3 [3, 1, 2])
      (by decide),
   C2_transaction_id_unique.2 65536 (by decide)⟩

end TransactionTable

/-! ## Client Registry (C3)

Modelled from the spec: the Client Registry component (spec section 4.3) of the
QMI transaction engine is not among the given sources.  Allocation picks the
lowest unused client id in [1, 255] for the given service (id 0 is reserved for
control/broadcast); release makes an id immediately eligible for reuse. -/

namespace ClientRegistry

/-- Scan candidate ids upward, returning the first one not currently allocated;
fuel bounds the scan to the [cand, cand + fuel) window. -/
def findLowestFree (cand : Nat) (fuel : Nat) (alloc : List Nat) : Option Nat :=
  match fuel with
  | 0 => none
  | f + 1 => if cand ∈ alloc then findLowestFree (cand + 1) f alloc else some cand

/-- Allocate: lowest unused id in [1, 255] for this service (none when all 255
ids are taken). `alloc` is the list of ids currently held by live handles of the
service. -/
def allocate (alloc : List Nat) : Option Nat := findLowestFree 1 255 alloc

/-- Release a handle's id. -/
def release (alloc : List Nat) (i : Nat) : List Nat := alloc.erase i

theorem findLowestFree_spec :
    ∀ {fuel cand i : Nat} {alloc : List Nat},
      findLowestFree cand fuel alloc = some i →
        cand ≤ i ∧ i < cand + fuel ∧ i ∉ alloc ∧
        ∀ j, cand ≤ j → j < i → j ∈ alloc := by
  intro fuel
  induction fuel with
  | zero => intro cand i alloc h; simp [findLowestFree] at h
  | succ f ih =>
      intro cand i alloc h
      rw [findLowestFree] at h
      by_cases hm : cand ∈ alloc
      · rw [if_pos hm] at h
        obtain ⟨h1, h2, h3, h4⟩ := ih h
        refine ⟨by omega, by omega, h3, ?_⟩
        intro j hj1 hj2
        rcases Nat.eq_or_lt_of_le hj1 with rfl | hlt
        · exact hm
        · exact h4 j hlt hj2
      · rw [if_neg hm] at h
        cases h
        exact ⟨Nat.le_refl _, by omega, hm, fun j hj1 hj2 => absurd hj1 (by omega)⟩

theorem findLowestFree_complete :
    ∀ {fuel cand i : Nat} {alloc : List Nat},
      cand ≤ i → i < cand + fuel → i ∉ alloc →
      (∀ j, cand ≤ j → j < i → j ∈ alloc) →
      findLowestFree cand fuel alloc = some i := by
  intro fuel
  induction fuel with
  | zero => intro cand i alloc h1 h2; omega
  | succ f ih =>
      intro cand i alloc h1 h2 h3 h4
      rw [findLowestFree]
      rcases Nat.eq_or_lt_of_le h1 with rfl | hlt
      · rw [if_neg h3]
      · rw [if_pos (h4 cand (Nat.le_refl _) hlt)]
        exact ih hlt (by omega) h3 (fun j hj1 hj2 => h4 j (by omega) hj2)

/-- Claim C3: allocation never returns id 0 and never an id currently held by a
live handle of the same service; a successful allocation returns the lowest
unused id in [1, 255]; and a released id is eligible for reuse by the
immediately following allocation - if every smaller id of the range is still
held, that allocation returns exactly the released id. -/
theorem C3_registry_allocation :
    (∀ (alloc : List Nat) (r : Nat), allocate alloc = some r →
       r ≠ 0 ∧ r ∉ alloc ∧ 1 ≤ r ∧ r ≤ 255 ∧
       ∀ j, 1 ≤ j → j < r → j ∈ alloc) ∧
    (∀ (alloc : List Nat) (i : Nat), alloc.Nodup → i ∈ alloc →
       1 ≤ i → i ≤ 255 →
       (∀ j, 1 ≤ j → j < i → j ∈ release alloc i) →
       allocate (release alloc i) = some i) := by
  constructor
  · intro alloc r h
    obtain ⟨h1, h2, h3, h4⟩ := findLowestFree_spec h
    exact ⟨by omega, h3, h1, by omega, h4⟩
  · intro alloc i hnd hmem h1 h255 hheld
    have hni : i ∉ release alloc i := by
      unfold release
      exact hnd.not_mem_erase
    exact findLowestFree_complete h1 (by omega) hni hheld

theorem C3_registry_allocation_witness :
    ((3 : Nat) ≠ 0 ∧ (3 : Nat) ∉ [1, 2] ∧ 1 ≤ (3 : Nat) ∧ (3 : Nat) ≤ 255 ∧
      (∀ j, 1 ≤ j → j < 3 → j ∈ [1, 2])) ∧
    allocate (release [1, 2, 3] 1) = some 1 := by
  constructor
  · exact C3_registry_allocation.1 [1, 2] 3 (by decide)
  · exact C3_registry_allocation.2 [1, 2, 3] 1 (by decide) (by decide)
      (by decide) (by decide) (by intro j hj1 hj2; omega)
end ClientRegistry

/-! ## Device Session close (C4)

Modelled from the spec: the Device Session component (spec section 4.5) of the
QMI transaction engine is not among the given sources.  close() is idempotent
and drains the Transaction Table - resolving every pending transaction as
Cancelled - before tearing down the Transport; each cancellation callback fires
while the session still reports open. -/

namespace DeviceSession

/-- Observable events emitted while closing, in order: one cancellation callback
per pending transaction, then the session reporting closed (is_open() becomes
false), then the transport teardown. -/
inductive Event where
  | cancelled : Nat → Event
  | sessionClosed : Event
  | transportReleased : Event
deriving DecidableEq

/-- Session state: the open flag, the pending transaction ids of the transaction
table, and whether the transport is still held. -/
structure Session where
  isOpen : Bool
  pending : List Nat
  transportUp : Bool
deriving DecidableEq

/-- Close the session: on an open session, resolve every pending transaction as
Cancelled (each callback firing while is_open() is still true), then mark the
session closed and tear down the transport; on a closed session, do nothing. -/
def close (s : Session) : Session × List Event :=
  if s.isOpen then
    (Session.mk false [] false,
     s.pending.map Event.cancelled ++ [Event.sessionClosed, Event.transportReleased])
  else
    (s, [])

theorem close_events_order {A : List Event} {i j : Nat} {t : Nat}
    (hci : (A ++ [Event.sessionClosed, Event.transportReleased])[i]? =
      some (Event.cancelled t))
    (hcj : (A ++ [Event.sessionClosed, Event.transportReleased])[j]? =
        some Event.sessionClosed ∨
      (A ++ [Event.sessionClosed, Event.transportReleased])[j]? =
        some Event.transportReleased)
    (hA : ∀ e ∈ A, ∃ u, e = Event.cancelled u) :
    i < j := by
  have hilen : i < A.length + 2 := by
    have := List.getElem?_eq_some.mp hci
    obtain ⟨hlt, -⟩ := this
    simpa using hlt
  have hilt : i < A.length := by
    by_contra hge
    push_neg at hge
    rw [List.getElem?_append_right hge] at hci
    have hk : i - A.length < 2 := by omega
    interval_cases h : (i - A.length) <;> simp at hci
  have hjge : A.length ≤ j := by
    by_contra hlt
    push_neg at hlt
    rw [List.getElem?_append_left hlt] at hcj
    rcases hcj with h | h <;>
      · obtain ⟨hjl, hEq⟩ := List.getElem?_eq_some.mp h
        obtain ⟨u, hu⟩ := hA _ (List.getElem_mem hjl)
        rw [hEq] at hu
        exact Event.noConfusion hu
  omega

/-- Claim C4: close() is idempotent (a second close is a no-op), and closing an
open session resolves every pending transaction as Cancelled before the
transport is torn down, each cancellation event preceding both the moment
is_open() becomes false and the transport teardown, so no caller is left
waiting. -/
theorem C4_close_idempotent_cancels_pending (s : Session) (hopen : s.isOpen = true) :
    (close (close s).1 = ((close s).1, []) ∧
     (close s).1.isOpen = false ∧ (close s).1.pending = []) ∧
    (∀ t ∈ s.pending, Event.cancelled t ∈ (close s).2) ∧
    (∀ (i j t : Nat),
       (close s).2[i]? = some (Event.cancelled t) →
       ((close s).2[j]? = some Event.sessionClosed ∨
        (close s).2[j]? = some Event.transportReleased) →
       i < j) := by
  have hcl : close s =
      (Session.mk false [] false,
       s.pending.map Event.cancelled ++ [Event.sessionClosed, Event.transportReleased]) := by
    rw [close, if_pos hopen]
  rw [hcl]
  refine ⟨⟨by rw [close]; simp, rfl, rfl⟩, ?_, ?_⟩
  · intro t ht
    simp only [List.mem_append, List.mem_map]
    exact Or.inl ⟨t, ht, rfl⟩
  · intro i j t hci hcj
    exact close_events_order hci hcj
      (fun e he => by
        obtain ⟨u, -, hu⟩ := List.mem_map.mp he
        exact ⟨u, hu.symm⟩)

/-- A concrete open session with two pending transactions A = 11 and B = 12. -/
def sessionExample : Session := Session.mk true [11, 12] true

theorem C4_close_idempotent_cancels_pending_witness :
    sessionExample.isOpen = true ∧
    ((close (close sessionExample).1 = ((close sessionExample).1, []) ∧
      (close sessionExample).1.isOpen = false ∧ (close sessionExample).1.pending = []) ∧
     (∀ t ∈ sessionExample.pending, Event.cancelled t ∈ (close sessionExample).2) ∧
     (∀ (i j t : Nat),
        (close sessionExample).2[i]? = some (Event.cancelled t) →
        ((close sessionExample).2[j]? = some Event.sessionClosed ∨
         (close sessionExample).2[j]? = some Event.transportReleased) →
        i < j)) :=
  ⟨rfl, C4_close_idempotent_cancels_pending sessionExample rfl⟩

end DeviceSession

/-! ## CLI embedding: --client-cid handling (C5)

Shallow embedding of device_allocate_client from the main qmicli source file.
The C code computes `cid32 = atoi (client_cid_str)` into a guint32 and rejects
the string (JSON error "invalid cid given", exit EXIT_FAILURE) when
`!cid32 || cid32 > G_MAXUINT8`; otherwise it proceeds with the 8-bit cid. -/

namespace Qmicli

/-- C `isspace` for the default locale. -/
def isSpaceChar (c : Char) : Bool :=
  c = ' ' || c = '\t' || c = '\n' || c = '\x0b' || c = '\x0c' || c = '\r'

def skipSpaces : List Char → List Char
  | [] => []
  | c :: cs => if isSpaceChar c then skipSpaces cs else c :: cs

/-- Accumulate decimal digits, stopping at the first non-digit. -/
def atoiDigits : Nat → List Char → Nat
  | acc, [] => acc
  | acc, c :: cs => if c.isDigit then atoiDigits (acc * 10 + (c.toNat - 48)) cs else acc

/-- The mathematical integer denoted by the longest initial-whitespace, optional
sign, digit-run prefix of the character list (C atoi's grammar). -/
def atoiInt (cs : List Char) : Int :=
  match skipSpaces cs with
  | '-' :: rest => -(atoiDigits 0 rest : Int)
  | '+' :: rest => (atoiDigits 0 rest : Int)
  | rest => (atoiDigits 0 rest : Int)

/-- Reduce to the 32-bit two's-complement int that C's atoi returns. -/
def wrapInt32 (v : Int) : Int := (v + 2147483648) % 4294967296 - 2147483648

/-- C atoi on the full string. -/
def atoi (s : String) : Int := wrapInt32 (atoiInt s.toList)

theorem atoi_int32_bounds (s : String) :
    -2147483648 ≤ atoi s ∧ atoi s < 2147483648 := by
  unfold atoi wrapInt32
  omega

/-- Outcome of device_allocate_client when --client-cid was given: proceed to
qmi_device_allocate_client with the parsed cid, or print a JSON error document
and exit. -/
inductive CidDecision where
  | proceed : Nat → CidDecision
  | exitError : JsonV → Nat → CidDecision

/-- The JSON document printed for a rejected cid string. -/
def invalid_cid_doc (s : String) : JsonV :=
  JsonV.obj [("success", JsonV.jbool false),
             ("error", JsonV.jstr "invalid cid given"),
             ("message", JsonV.jstr s)]

/-- device_allocate_client, restricted to the branch where client_cid_str is
set: `cid32 = atoi (client_cid_str)` assigned to a guint32, rejected when
`!cid32 || cid32 > G_MAXUINT8`. -/
def device_allocate_client (client_cid_str : String) : CidDecision :=
  let cid32 : Nat := ((atoi client_cid_str) % 4294967296).toNat
  if cid32 = 0 ∨ 255 < cid32 then
    CidDecision.exitError (invalid_cid_doc client_cid_str) EXIT_FAILURE
  else
    CidDecision.proceed cid32

/-- Claim C5: the CLI proceeds to client allocation with the given CID exactly
when the string parses via atoi to an integer in [1, 255]; whenever the parsed
value is 0 or exceeds 255, it prints the JSON object with success false and
error "invalid cid given" and exits with EXIT_FAILURE, so id 0 is never
requested for an ordinary service client. -/
theorem C5_client_cid_validation (s : String) :
    (∀ c : Nat, device_allocate_client s = CidDecision.proceed c ↔
       (1 ≤ atoi s ∧ atoi s ≤ 255 ∧ (c : Int) = atoi s)) ∧
    ((atoi s ≤ 0 ∨ 255 < atoi s) →
       device_allocate_client s =
         CidDecision.exitError (invalid_cid_doc s) EXIT_FAILURE) ∧
    (∀ c : Nat, device_allocate_client s = CidDecision.proceed c →
       c ≠ 0 ∧ 1 ≤ c ∧ c ≤ 255) := by
  obtain ⟨hlo, hhi⟩ := atoi_int32_bounds s
  simp only [device_allocate_client]
  by_cases hc : ((atoi s % 4294967296).toNat = 0 ∨ 255 < (atoi s % 4294967296).toNat)
  · rw [if_pos hc]
    refine ⟨?_, fun _ => rfl, ?_⟩
    · intro c
      constructor
      · intro h
        exact CidDecision.noConfusion h
      · rintro ⟨h1, h2, h3⟩
        exfalso
        omega
    · intro c h
      exact CidDecision.noConfusion h
  · rw [if_neg hc]
    push_neg at hc
    obtain ⟨hc0, hc255⟩ := hc
    refine ⟨?_, ?_, ?_⟩
    · intro c
      constructor
      · intro h
        injection h with h
        omega
      · rintro ⟨h1, h2, h3⟩
        have hcc : (atoi s % 4294967296).toNat = c := by omega
        rw [hcc]
    · intro hout
      exfalso
      omega
    · intro c h
      injection h with h
      omega

theorem C5_client_cid_validation_witness :
    device_allocate_client "0" =
      CidDecision.exitError (invalid_cid_doc "0") EXIT_FAILURE :=
  (C5_client_cid_validation "0").2.1 (by decide)

end Qmicli

/-! ## CLI embedding: service run dispatch, noop, operation completion (C6, C10)

Shallow embedding of qmicli_pbm_run and qmicli_nas_run (the flag-dispatch
bodies), noop_cb, qmicli_async_operation_done, release_client_ready, and the
final return of main. -/

namespace Qmicli

/-- What a service run function does first: issue one asynchronous QMI service
request, schedule the idle noop callback, shut down reporting failure (input
bundle could not be built), or hit the g_warn_if_reached fallthrough. -/
inductive RunAction where
  | request : String → RunAction
  | idleNoop : RunAction
  | shutdownFalse : RunAction
  | warnUnreached : RunAction
deriving DecidableEq

/-- PBM group option flags. -/
structure PbmOptions where
  get_all_capabilities_flag : Bool
  noop_flag : Bool
deriving DecidableEq

/-- qmicli_pbm_run: get-all-capabilities first, then noop, else warn. -/
def qmicli_pbm_run (o : PbmOptions) : RunAction :=
  if o.get_all_capabilities_flag then RunAction.request "pbm-get-all-capabilities"
  else if o.noop_flag then RunAction.idleNoop
  else RunAction.warnUnreached

/-- NAS group option flags, in the order qmicli_nas_run tests them. -/
structure NasOptions where
  get_signal_strength_flag : Bool
  get_signal_info_flag : Bool
  get_tx_rx_info_str : Option String
  get_home_network_flag : Bool
  get_serving_system_flag : Bool
  get_system_info_flag : Bool
  get_technology_preference_flag : Bool
  get_system_selection_preference_flag : Bool
  set_system_selection_preference_str : Option String
  network_scan_flag : Bool
  reset_flag : Bool
  noop_flag : Bool
deriving DecidableEq

/-- qmicli_nas_run: the if-chain over the twelve actions.  The two string-taking
actions first build an input bundle from their argument via a qmicli-helpers
parser (not among the given sources); the boolean parameters say whether that
parse succeeds - on failure the run shuts down with FALSE without issuing a
request. -/
def qmicli_nas_run (o : NasOptions)
    (radio_interface_parses rat_mode_parses : Bool) : RunAction :=
  if o.get_signal_strength_flag then RunAction.request "nas-get-signal-strength"
  else if o.get_signal_info_flag then RunAction.request "nas-get-signal-info"
  else if o.get_tx_rx_info_str.isSome then
    (if radio_interface_parses then RunAction.request "nas-get-tx-rx-info"
     else RunAction.shutdownFalse)
  else if o.get_home_network_flag then RunAction.request "nas-get-home-network"
  else if o.get_serving_system_flag then RunAction.request "nas-get-serving-system"
  else if o.get_system_info_flag then RunAction.request "nas-get-system-info"
  else if o.get_technology_preference_flag then
    RunAction.request "nas-get-technology-preference"
  else if o.get_system_selection_preference_flag then
    RunAction.request "nas-get-system-selection-preference"
  else if o.set_system_selection_preference_str.isSome then
    (if rat_mode_parses then RunAction.request "nas-set-system-selection-preference"
     else RunAction.shutdownFalse)
  else if o.network_scan_flag then RunAction.request "nas-network-scan"
  else if o.reset_flag then RunAction.request "nas-reset"
  else if o.noop_flag then RunAction.idleNoop
  else RunAction.warnUnreached

/-- noop_cb calls shutdown (TRUE): the status reported to
qmicli_async_operation_done is TRUE. -/
def noop_cb_reported_status : Bool := true

/-- noop_cb returns FALSE: the idle source does not repeat. -/
def noop_cb_repeat : Bool := false

/-- Device interactions visible on the QMI control channel. -/
inductive Interaction where
  | allocateClient : Interaction
  | serviceRequest : String → Interaction
  | releaseClientCid : Interaction
deriving DecidableEq

def serviceRequestsOf : RunAction → List Interaction
  | RunAction.request n => [Interaction.serviceRequest n]
  | _ => []

/-- qmicli_async_operation_done keeps the reported status in operation_status
unchanged. -/
def qmicli_async_operation_done_status (reported : Bool) : Bool := reported

/-- qmicli_async_operation_done asks the device to release the CID exactly when
a client exists and --client-no-release-cid was not given (with the flag given,
qmi_device_release_client is still called but without the RELEASE_CID flag, so
no release request reaches the device). -/
def release_cid_interactions (client_present no_release : Bool) : List Interaction :=
  if client_present && !no_release then [Interaction.releaseClientCid] else []

/-- Device interactions of a full dispatched run: the client-id allocation done
before dispatch, whatever the service run issues, then the CID release decided
by qmicli_async_operation_done. -/
def deviceInteractions (run : RunAction) (no_release : Bool) : List Interaction :=
  Interaction.allocateClient ::
    (serviceRequestsOf run ++ release_cid_interactions true no_release)

/-- The NAS option set with only --nas-noop enabled. -/
def nasNoopOnly : NasOptions :=
  NasOptions.mk false false none false false false false false none false false true

/-- Claim C6: with a service noop flag as the only enabled action, the run
function issues no QMI service request - it only schedules the idle callback,
which completes the operation with status TRUE - so the run's device
interactions are exactly the prior client-id allocation and the subsequent CID
release, the latter skipped exactly when --client-no-release-cid is given. -/
theorem C6_noop_run (no_release radio_interface_parses rat_mode_parses : Bool) :
    qmicli_pbm_run (PbmOptions.mk false true) = RunAction.idleNoop ∧
    qmicli_nas_run nasNoopOnly radio_interface_parses rat_mode_parses =
      RunAction.idleNoop ∧
    serviceRequestsOf RunAction.idleNoop = [] ∧
    noop_cb_reported_status = true ∧
    deviceInteractions RunAction.idleNoop no_release =
      Interaction.allocateClient ::
        (if no_release then [] else [Interaction.releaseClientCid]) := by
  refine ⟨rfl, rfl, rfl, rfl, ?_⟩
  cases no_release <;> rfl

/-- The JSON document printed by release_client_ready on failure. -/
def release_client_error_doc (msg : String) : JsonV :=
  JsonV.obj [("success", JsonV.jbool false),
             ("error", JsonV.jstr "couldn't release client"),
             ("message", JsonV.jstr msg)]

/-- release_client_ready prints the error document when the release fails and
then quits the loop either way; it never touches operation_status. -/
def release_client_ready_docs (release_fails : Bool) (msg : String) : List JsonV :=
  if release_fails then [release_client_error_doc msg] else []

structure FinishResult where
  exitCode : Nat
  docs : List JsonV

/-- The tail of a run, from qmicli_async_operation_done to main's return:
operation_status := reported status; if a client exists the release runs (its
failure only printing a document); main returns operation_status ? EXIT_SUCCESS
: EXIT_FAILURE. -/
def finishRun (reported client_present release_fails : Bool) (msg : String) :
    FinishResult :=
  FinishResult.mk
    (if qmicli_async_operation_done_status reported then EXIT_SUCCESS else EXIT_FAILURE)
    (if client_present then release_client_ready_docs release_fails msg else [])

/-- Claim C10: the process exit status is determined solely by the status the
service action reported to qmicli_async_operation_done - EXIT_SUCCESS exactly
when that status was TRUE - and a failure to release the client id prints a
JSON error document but leaves the exit status unchanged. -/
theorem C10_exit_status_from_reported
    (reported client_present release_fails : Bool) (msg : String) :
    ((finishRun reported client_present release_fails msg).exitCode = EXIT_SUCCESS ↔
       reported = true) ∧
    ((finishRun reported client_present release_fails msg).exitCode = EXIT_FAILURE ↔
       reported = false) ∧
    ((finishRun reported client_present true msg).exitCode =
       (finishRun reported client_present false msg).exitCode) ∧
    (client_present = true → release_fails = true →
       release_client_error_doc msg ∈
         (finishRun reported client_present release_fails msg).docs) := by
  cases reported <;> cases client_present <;> cases release_fails <;>
    simp [finishRun, qmicli_async_operation_done_status, release_client_ready_docs,
          EXIT_SUCCESS, EXIT_FAILURE]

theorem C10_exit_status_from_reported_witness :
    release_client_error_doc "transaction timed out" ∈
      (finishRun false true true "transaction timed out").docs :=
  (C10_exit_status_from_reported false true true "transaction timed out").2.2.2 rfl rfl

end Qmicli

/-! ## CLI embedding: fields dropped by the NAS printers (C7)

Shallow embedding of the success paths of get_home_network_ready and
get_signal_strength_ready from qmicli-nas.c. -/

namespace Qmicli

/-- The 3GPP2 home-network TLV as decoded by libqmi: the CLI requests only mcc
and mnc, passing NULL for display_description, description_encoding and
description. -/
structure HomeNetwork3gpp2 where
  mcc : Nat
  mnc : Nat
  display_description : String
  description_encoding : Nat
  description : List Nat
deriving DecidableEq

/-- The "3gpp2 home network" object packed by get_home_network_ready: format
string "{s{sisisn}}" - mcc, mnc, and a literal JSON null for "description"
("TODO: convert description to UTF-8 and display"). -/
def home_network_3gpp2_json (g : HomeNetwork3gpp2) : JsonV :=
  JsonV.obj [("mcc", JsonV.jint g.mcc), ("mnc", JsonV.jint g.mnc),
             ("description", JsonV.null)]

/-- The document printed by get_home_network_ready on success: base object with
success and device, the mandatory home-network TLV, the optional home-system-id
TLV merged into it, and the optional 3GPP2 TLV as a separate key. -/
def get_home_network_json (device : String) (mcc mnc : Nat) (description : String)
    (home_system_id : Option (Nat × Nat))
    (g3gpp2 : Option HomeNetwork3gpp2) : JsonV :=
  JsonV.obj
    ([("success", JsonV.jbool true), ("device", JsonV.jstr device),
      ("home network", JsonV.obj
        ([("mcc", JsonV.jint mcc), ("mnc", JsonV.jint mnc),
          ("description", JsonV.jstr description)] ++
         (match home_system_id with
          | some (sid, nid) => [("sid", JsonV.jint sid), ("nid", JsonV.jint nid)]
          | none => [])))] ++
     (match g3gpp2 with
      | some g => [("3gpp2 home network", home_network_3gpp2_json g)]
      | none => []))

/-- The get-signal-strength output TLVs that get_signal_strength_ready reads
through libqmi getters; every other TLV of the message is left in `others`,
matching the "Just skip others for now" comment in the source. -/
structure SignalStrengthOutput where
  current_strength : Int
  current_network : String
  strength_list : Option (List (String × Int))
  rssi_list : Option (List (String × Int))
  ecio_list : Option (List (String × Int))
  io : Option Int
  sinr : Option Nat
  rsrq : Option (String × Int)
  lte_snr : Option Int
  lte_rsrp : Option Int
  others : List QmiCodec.Tlv
deriving DecidableEq

/-- get_db_from_sinr_level from qmicli-nas.c; the default branch returns
-G_MAXDOUBLE. -/
def get_db_from_sinr_level (level : Nat) : Rat :=
  match level with
  | 0 => -9
  | 1 => -6
  | 2 => -(9 : Rat) / 2
  | 3 => -3
  | 4 => -2
  | 5 => 1
  | 6 => 3
  | 7 => 6
  | 8 => 9
  | _ => -((2 : Rat) ^ 1024 - (2 : Rat) ^ 971)

/-- The document printed by get_signal_strength_ready on success.  The "other"
key is packed as an empty object and the per-element json_array_append calls
fail against that object, so it stays empty; rssi entries are negated, ecio is
scaled by -0.5, lte snr by 0.1. -/
def get_signal_strength_json (device : String) (o : SignalStrengthOutput) : JsonV :=
  JsonV.obj
    ([("success", JsonV.jbool true), ("device", JsonV.jstr device),
      ("current", JsonV.obj [("network", JsonV.jstr o.current_network),
                             ("dbm", JsonV.jint o.current_strength)])] ++
     (match o.strength_list with
      | some _ => [("other", JsonV.obj [])]
      | none => []) ++
     (match o.rssi_list with
      | some l => [("rssi", JsonV.obj (l.map fun p => (p.1, JsonV.jint (-1 * p.2))))]
      | none => []) ++
     (match o.ecio_list with
      | some l =>
          [("ecio", JsonV.obj (l.map fun p => (p.1, JsonV.jnum (-(1 : Rat) / 2 * p.2))))]
      | none => []) ++
     (match o.io with
      | some v => [("io", JsonV.jint v)]
      | none => []) ++
     (match o.sinr with
      | some lv => [("sinr", JsonV.obj [("level", JsonV.jint lv),
                                        ("db", JsonV.jnum (get_db_from_sinr_level lv))])]
      | none => []) ++
     (match o.rsrq with
      | some p => [("rsrq", JsonV.obj [(p.1, JsonV.jint p.2)])]
      | none => []) ++
     (match o.lte_snr with
      | some v => [("snr", JsonV.obj [("lte", JsonV.jnum ((1 : Rat) / 10 * v))])]
      | none => []) ++
     (match o.lte_rsrp with
      | some v => [("rsrp", JsonV.obj [("lte", JsonV.jint v)])]
      | none => []))

/-- Top-level keys of a JSON object. -/
def topKeys : JsonV → List String
  | JsonV.obj fs => fs.map Prod.fst
  | _ => []

/-- Claim C7: the printed home-network document carries "description": null in
its "3gpp2 home network" object and does not depend on the 3GPP2 description
fields the CLI never reads; and the printed signal-strength document does not
depend on any output TLV beyond current strength, strength list, RSSI, ECIO,
IO, SINR, RSRQ, LTE SNR and LTE RSRP - its keys are limited to those sections. -/
theorem C7_dropped_fields :
    (∀ (device : String) (mcc mnc : Nat) (description : String)
       (hsid : Option (Nat × Nat)) (g g' : HomeNetwork3gpp2),
       g.mcc = g'.mcc → g.mnc = g'.mnc →
       (get_home_network_json device mcc mnc description hsid (some g) =
          get_home_network_json device mcc mnc description hsid (some g') ∧
        home_network_3gpp2_json g =
          JsonV.obj [("mcc", JsonV.jint g.mcc), ("mnc", JsonV.jint g.mnc),
                     ("description", JsonV.null)])) ∧
    (∀ (device : String) (o : SignalStrengthOutput) (o1 o2 : List QmiCodec.Tlv),
       get_signal_strength_json device { o with others := o1 } =
         get_signal_strength_json device { o with others := o2 } ∧
       (topKeys (get_signal_strength_json device o)).all
         (fun k => ["success", "device", "current", "other", "rssi", "ecio", "io",
                    "sinr", "rsrq", "snr", "rsrp"].contains k) = true) := by
  constructor
  · intro device mcc mnc description hsid g g' hm hn
    refine ⟨?_, rfl⟩
    simp only [get_home_network_json, home_network_3gpp2_json, hm, hn]
  · intro device o o1 o2
    refine ⟨rfl, ?_⟩
    obtain ⟨cs, cn, sl, rl, el, io, si, rq, sn, rp, ot⟩ := o
    simp only [get_signal_strength_json, topKeys, List.map_append, List.all_append,
               Bool.and_eq_true]
    repeat' apply And.intro
    all_goals
      first
        | rfl
        | (cases sl <;> rfl)
        | (cases rl <;> rfl)
        | (cases el <;> rfl)
        | (cases io <;> rfl)
        | (cases si <;> rfl)
        | (cases rq <;> rfl)
        | (cases sn <;> rfl)
        | (cases rp <;> rfl)

theorem C7_dropped_fields_witness :
    (get_home_network_json "/dev/cdc-wdm0" 310 260 "T-Mobile" none
        (some (HomeNetwork3gpp2.mk 310 260 "shown" 1 [72, 105])) =
      get_home_network_json "/dev/cdc-wdm0" 310 260 "T-Mobile" none
        (some (HomeNetwork3gpp2.mk 310 260 "" 0 [])) ∧
     home_network_3gpp2_json (HomeNetwork3gpp2.mk 310 260 "shown" 1 [72, 105]) =
       JsonV.obj [("mcc", JsonV.jint 310), ("mnc", JsonV.jint 260),
                  ("description", JsonV.null)]) :=
  C7_dropped_fields.1 "/dev/cdc-wdm0" 310 260 "T-Mobile" none
    (HomeNetwork3gpp2.mk 310 260 "shown" 1 [72, 105])
    (HomeNetwork3gpp2.mk 310 260 "" 0 []) rfl rfl

end Qmicli

/-! ## CLI embedding: action parsing (C9)

Shallow embedding of generic_options_enabled, qmicli_nas_options_enabled,
qmicli_pbm_options_enabled and parse_actions.  The DMS, WDS and UIM option
groups live in source files not among the given ones; their enabled-results are
abstract booleans here. -/

namespace Qmicli

/-- The generic (main group) action options. -/
structure GenericOptions where
  device_set_instance_id_str : Option String
  get_service_version_info_flag : Bool
deriving DecidableEq

/-- generic_options_enabled's action count:
`!!device_set_instance_id_str + get_service_version_info_flag`. -/
def n_generic_actions (g : GenericOptions) : Nat :=
  (if g.device_set_instance_id_str.isSome then 1 else 0) +
  (if g.get_service_version_info_flag then 1 else 0)

/-- qmicli_nas_options_enabled's action count, in source order. -/
def n_nas_actions (o : NasOptions) : Nat :=
  (if o.get_signal_strength_flag then 1 else 0) +
  (if o.get_signal_info_flag then 1 else 0) +
  (if o.get_tx_rx_info_str.isSome then 1 else 0) +
  (if o.get_home_network_flag then 1 else 0) +
  (if o.get_serving_system_flag then 1 else 0) +
  (if o.get_system_info_flag then 1 else 0) +
  (if o.get_technology_preference_flag then 1 else 0) +
  (if o.get_system_selection_preference_flag then 1 else 0) +
  (if o.set_system_selection_preference_str.isSome then 1 else 0) +
  (if o.network_scan_flag then 1 else 0) +
  (if o.reset_flag then 1 else 0) +
  (if o.noop_flag then 1 else 0)

/-- qmicli_pbm_options_enabled's action count. -/
def n_pbm_actions (o : PbmOptions) : Nat :=
  (if o.get_all_capabilities_flag then 1 else 0) +
  (if o.noop_flag then 1 else 0)

def too_many_generic_doc : JsonV :=
  JsonV.obj [("success", JsonV.jbool false),
             ("error", JsonV.jstr "too many generic actions requested")]

def too_many_nas_doc : JsonV :=
  JsonV.obj [("success", JsonV.jbool false),
             ("error", JsonV.jstr "too many NAS actions requested")]

def too_many_pbm_doc : JsonV :=
  JsonV.obj [("success", JsonV.jbool false),
             ("error", JsonV.jstr "too many pbm actions requested")]

def multiple_services_doc : JsonV :=
  JsonV.obj [("success", JsonV.jbool false),
             ("error", JsonV.jstr "cannot execute multiple actions of different services")]

def no_actions_doc : JsonV :=
  JsonV.obj [("success", JsonV.jbool false),
             ("error", JsonV.jstr "no actions specified")]

/-- generic_options_enabled: exits with a JSON error when more than one generic
action is requested, else reports whether any is. -/
def generic_options_enabled (g : GenericOptions) : Except JsonV Bool :=
  if 1 < n_generic_actions g then Except.error too_many_generic_doc
  else Except.ok (n_generic_actions g != 0)

def qmicli_nas_options_enabled (o : NasOptions) : Except JsonV Bool :=
  if 1 < n_nas_actions o then Except.error too_many_nas_doc
  else Except.ok (n_nas_actions o != 0)

def qmicli_pbm_options_enabled (o : PbmOptions) : Except JsonV Bool :=
  if 1 < n_pbm_actions o then Except.error too_many_pbm_doc
  else Except.ok (n_pbm_actions o != 0)

inductive QmiService where
  | ctl : QmiService
  | dms : QmiService
  | nas : QmiService
  | wds : QmiService
  | pbm : QmiService
  | uim : QmiService
deriving DecidableEq

/-- parse_actions: query each group in source order (any group check may exit
with its own too-many error), then reject several enabled groups or none; the
selected service is the last enabled group, as each branch overwrites the
global `service`. -/
def parse_actions (g : GenericOptions) (dms_enabled : Bool) (nas : NasOptions)
    (wds_enabled : Bool) (pbm : PbmOptions) (uim_enabled : Bool) :
    Except JsonV QmiService :=
  match generic_options_enabled g with
  | Except.error d => Except.error d
  | Except.ok gEn =>
    match qmicli_nas_options_enabled nas with
    | Except.error d => Except.error d
    | Except.ok nasEn =>
      match qmicli_pbm_options_enabled pbm with
      | Except.error d => Except.error d
      | Except.ok pbmEn =>
          let actions_enabled :=
            (if gEn then 1 else 0) + (if dms_enabled then 1 else 0) +
            (if nasEn then 1 else 0) + (if wds_enabled then 1 else 0) +
            (if pbmEn then 1 else 0) + (if uim_enabled then 1 else 0)
          if 1 < actions_enabled then Except.error multiple_services_doc
          else if actions_enabled = 0 then Except.error no_actions_doc
          else Except.ok
            (if uim_enabled then QmiService.uim
             else if pbmEn then QmiService.pbm
             else if wds_enabled then QmiService.wds
             else if nasEn then QmiService.nas
             else if dms_enabled then QmiService.dms
             else QmiService.ctl)

/-- How many of the six option groups have an enabled action. -/
def groups_enabled_count (g : GenericOptions) (dms_enabled : Bool) (nas : NasOptions)
    (wds_enabled : Bool) (pbm : PbmOptions) (uim_enabled : Bool) : Nat :=
  (if n_generic_actions g != 0 then 1 else 0) + (if dms_enabled then 1 else 0) +
  (if n_nas_actions nas != 0 then 1 else 0) + (if wds_enabled then 1 else 0) +
  (if n_pbm_actions pbm != 0 then 1 else 0) + (if uim_enabled then 1 else 0)

/-- What main has done by the time parse_actions returns: on a parse error the
document is printed and the process exits EXIT_FAILURE with no QmiDevice ever
created; otherwise main goes on to qmi_device_new. -/
structure ParseOutcome where
  printed_doc : Option JsonV
  exit_code : Option Nat
  device_created : Bool

def main_dispatch (g : GenericOptions) (dms_enabled : Bool) (nas : NasOptions)
    (wds_enabled : Bool) (pbm : PbmOptions) (uim_enabled : Bool) : ParseOutcome :=
  match parse_actions g dms_enabled nas wds_enabled pbm uim_enabled with
  | Except.error d => ParseOutcome.mk (some d) (some EXIT_FAILURE) false
  | Except.ok _ => ParseOutcome.mk none none true

/-- Does a json_pack "sb" field named success carry false? -/
def fieldIsSuccessFalse : String × JsonV → Bool
  | (k, JsonV.jbool b) => k == "success" && b == false
  | _ => false

def hasSuccessFalse : JsonV → Bool
  | JsonV.obj fs => fs.any fieldIsSuccessFalse
  | _ => false

/-- Claim C9: parse_actions fails exactly when some single group has more than
one enabled action, or several groups (generic included) are enabled, or none
is; every failure carries one of the five error documents, each a JSON object
with success false, and is printed with exit EXIT_FAILURE before any device is
created. -/
theorem C9_at_most_one_action (g : GenericOptions) (dms_enabled : Bool)
    (nas : NasOptions) (wds_enabled : Bool) (pbm : PbmOptions) (uim_enabled : Bool) :
    ((∃ d, parse_actions g dms_enabled nas wds_enabled pbm uim_enabled =
        Except.error d) ↔
      (1 < n_generic_actions g ∨ 1 < n_nas_actions nas ∨ 1 < n_pbm_actions pbm ∨
       1 < groups_enabled_count g dms_enabled nas wds_enabled pbm uim_enabled ∨
       groups_enabled_count g dms_enabled nas wds_enabled pbm uim_enabled = 0)) ∧
    (∀ d, parse_actions g dms_enabled nas wds_enabled pbm uim_enabled =
        Except.error d →
      (d = too_many_generic_doc ∨ d = too_many_nas_doc ∨ d = too_many_pbm_doc ∨
       d = multiple_services_doc ∨ d = no_actions_doc) ∧
      hasSuccessFalse d = true ∧
      main_dispatch g dms_enabled nas wds_enabled pbm uim_enabled =
        ParseOutcome.mk (some d) (some EXIT_FAILURE) false) := by
  by_cases h1 : 1 < n_generic_actions g
  · have hp : parse_actions g dms_enabled nas wds_enabled pbm uim_enabled =
        Except.error too_many_generic_doc := by
      simp [parse_actions, generic_options_enabled, h1]
    refine ⟨⟨fun _ => Or.inl h1, fun _ => ⟨_, hp⟩⟩, ?_⟩
    intro d hd
    rw [hp] at hd
    injection hd with hd
    subst hd
    exact ⟨Or.inl rfl, rfl, by simp [main_dispatch, hp]⟩
  · by_cases h2 : 1 < n_nas_actions nas
    · have hp : parse_actions g dms_enabled nas wds_enabled pbm uim_enabled =
          Except.error too_many_nas_doc := by
        simp [parse_actions, generic_options_enabled, qmicli_nas_options_enabled, h1, h2]
      refine ⟨⟨fun _ => Or.inr (Or.inl h2), fun _ => ⟨_, hp⟩⟩, ?_⟩
      intro d hd
      rw [hp] at hd
      injection hd with hd
      subst hd
      exact ⟨Or.inr (Or.inl rfl), rfl, by simp [main_dispatch, hp]⟩
    · by_cases h3 : 1 < n_pbm_actions pbm
      · have hp : parse_actions g dms_enabled nas wds_enabled pbm uim_enabled =
            Except.error too_many_pbm_doc := by
          simp [parse_actions, generic_options_enabled, qmicli_nas_options_enabled,
                qmicli_pbm_options_enabled, h1, h2, h3]
        refine ⟨⟨fun _ => Or.inr (Or.inr (Or.inl h3)), fun _ => ⟨_, hp⟩⟩, ?_⟩
        intro d hd
        rw [hp] at hd
        injection hd with hd
        subst hd
        exact ⟨Or.inr (Or.inr (Or.inl rfl)), rfl, by simp [main_dispatch, hp]⟩
      · by_cases h4 : 1 < groups_enabled_count g dms_enabled nas wds_enabled pbm
            uim_enabled
        · have hp : parse_actions g dms_enabled nas wds_enabled pbm uim_enabled =
              Except.error multiple_services_doc := by
            simp only [parse_actions, generic_options_enabled,
                       qmicli_nas_options_enabled, qmicli_pbm_options_enabled,
                       if_neg h1, if_neg h2, if_neg h3]
            rw [if_pos (by simpa [groups_enabled_count] using h4)]
          refine ⟨⟨fun _ => Or.inr (Or.inr (Or.inr (Or.inl h4))), fun _ => ⟨_, hp⟩⟩, ?_⟩
          intro d hd
          rw [hp] at hd
          injection hd with hd
          subst hd
          exact ⟨Or.inr (Or.inr (Or.inr (Or.inl rfl))), rfl, by simp [main_dispatch, hp]⟩
        · by_cases h5 : groups_enabled_count g dms_enabled nas wds_enabled pbm
              uim_enabled = 0
          · have hp : parse_actions g dms_enabled nas wds_enabled pbm uim_enabled =
                Except.error no_actions_doc := by
              simp only [parse_actions, generic_options_enabled,
                         qmicli_nas_options_enabled, qmicli_pbm_options_enabled,
                         if_neg h1, if_neg h2, if_neg h3]
              rw [if_neg (by simpa [groups_enabled_count] using h4),
                  if_pos (by simpa [groups_enabled_count] using h5)]
            refine ⟨⟨fun _ => Or.inr (Or.inr (Or.inr (Or.inr h5))), fun _ => ⟨_, hp⟩⟩, ?_⟩
            intro d hd
            rw [hp] at hd
            injection hd with hd
            subst hd
            exact ⟨Or.inr (Or.inr (Or.inr (Or.inr rfl))), rfl,
                   by simp [main_dispatch, hp]⟩
          · have hs : parse_actions g dms_enabled nas wds_enabled pbm uim_enabled =
                Except.ok
                  (if uim_enabled then QmiService.uim
                   else if n_pbm_actions pbm != 0 then QmiService.pbm
                   else if wds_enabled then QmiService.wds
                   else if n_nas_actions nas != 0 then QmiService.nas
                   else if dms_enabled then QmiService.dms
                   else QmiService.ctl) := by
              simp only [parse_actions, generic_options_enabled,
                         qmicli_nas_options_enabled, qmicli_pbm_options_enabled,
                         if_neg h1, if_neg h2, if_neg h3]
              rw [if_neg (by simpa [groups_enabled_count] using h4),
                  if_neg (by simpa [groups_enabled_count] using h5)]
            refine ⟨⟨?_, ?_⟩, ?_⟩
            · rintro ⟨d, hd⟩
              rw [hs] at hd
              exact Except.noConfusion hd
            · intro hr
              exfalso
              rcases hr with h | h | h | h | h <;> omega
            · intro d hd
              rw [hs] at hd
              exact Except.noConfusion hd

/-- The all-disabled option sets. -/
def genericAllOff : GenericOptions := GenericOptions.mk none false

def nasAllOff : NasOptions :=
  NasOptions.mk false false none false false false false false none false false false

def pbmAllOff : PbmOptions := PbmOptions.mk false false

theorem C9_at_most_one_action_witness :
    (no_actions_doc = too_many_generic_doc ∨ no_actions_doc = too_many_nas_doc ∨
     no_actions_doc = too_many_pbm_doc ∨ no_actions_doc = multiple_services_doc ∨
     no_actions_doc = no_actions_doc) ∧
    hasSuccessFalse no_actions_doc = true ∧
    main_dispatch genericAllOff false nasAllOff false pbmAllOff false =
      ParseOutcome.mk (some no_actions_doc) (some EXIT_FAILURE) false :=
  (C9_at_most_one_action genericAllOff false nasAllOff false pbmAllOff false).2
    no_actions_doc rfl

end Qmicli

/-! ## CLI embedding: output documents and serialization flags (C8)

Every print site of the three given source files, with the top-level keys of
the json_pack format it emits and whether it serializes with the global
json_print_flag.  jansson flag values: JSON_INDENT(n) = n & 0x1f,
JSON_COMPACT = 0x20, JSON_PRESERVE_ORDER = 0x100. -/

namespace Qmicli

def JSON_MAX_INDENT : Nat := 31

def JSON_INDENT (n : Nat) : Nat := n &&& JSON_MAX_INDENT

def JSON_COMPACT : Nat := 32

def JSON_PRESERVE_ORDER : Nat := 256

/-- The global json_print_flag: initialized to
JSON_PRESERVE_ORDER + JSON_INDENT(4) and switched by main to
JSON_PRESERVE_ORDER + JSON_COMPACT when --json is given. -/
def json_print_flag (json_flag : Bool) : Nat :=
  if json_flag then JSON_PRESERVE_ORDER + JSON_COMPACT
  else JSON_PRESERVE_ORDER + JSON_INDENT 4

/-- Whether a print site reports a decoded result, an error, or is purely
informational. -/
inductive SiteKind where
  | resultDoc : SiteKind
  | errorDoc : SiteKind
  | infoText : SiteKind
deriving DecidableEq

/-- Shape of what a print site writes: a json_dumps'd document (top-level keys
of the base json_pack, and whether the dump uses the global json_print_flag
rather than a hard-coded flag value), or plain g_print text. -/
inductive OutKind where
  | jsonDoc : List String → Bool → OutKind
  | textDoc : OutKind
deriving DecidableEq

structure PrintSite where
  name : String
  kind : SiteKind
  out : OutKind
deriving DecidableEq

/-- print_version_and_exit. -/
def versionPrintSite : PrintSite :=
  PrintSite.mk "version-print" SiteKind.resultDoc
    (OutKind.jsonDoc ["success", "program_name", "program_version", "copyright",
                      "license"] true)

/-- set_instance_id_ready's success path: a plain-text g_print of the link id. -/
def setInstanceIdResultSite : PrintSite :=
  PrintSite.mk "set-instance-id-result" SiteKind.resultDoc OutKind.textDoc

/-- main's g_option_context_parse failure: json_dumps with the hard-coded
JSON_PRESERVE_ORDER + JSON_INDENT(4), not the json_print_flag global. -/
def optionParseErrorSite : PrintSite :=
  PrintSite.mk "option-parse-error" SiteKind.errorDoc
    (OutKind.jsonDoc ["success", "error"] false)

/-- Print sites of the main qmicli source file, in source order. -/
def mainSites : List PrintSite :=
  [versionPrintSite,
   PrintSite.mk "too-many-generic-actions" SiteKind.errorDoc
     (OutKind.jsonDoc ["success", "error"] true),
   PrintSite.mk "release-client-error" SiteKind.errorDoc
     (OutKind.jsonDoc ["success", "error", "message"] true),
   PrintSite.mk "client-id-not-released-notice" SiteKind.infoText OutKind.textDoc,
   PrintSite.mk "allocate-client-error" SiteKind.errorDoc
     (OutKind.jsonDoc ["success", "error", "message", "service"] true),
   PrintSite.mk "invalid-cid" SiteKind.errorDoc
     (OutKind.jsonDoc ["success", "error", "message"] true),
   PrintSite.mk "invalid-instance-id" SiteKind.errorDoc
     (OutKind.jsonDoc ["success", "error", "message"] true),
   PrintSite.mk "instance-id-out-of-range" SiteKind.errorDoc
     (OutKind.jsonDoc ["success", "error", "message", "max"] true),
   PrintSite.mk "set-instance-id-error" SiteKind.errorDoc
     (OutKind.jsonDoc ["success", "error", "message"] true),
   setInstanceIdResultSite,
   PrintSite.mk "get-service-version-info-error" SiteKind.errorDoc
     (OutKind.jsonDoc ["success", "error", "message"] true),
   PrintSite.mk "get-service-version-info-result" SiteKind.resultDoc
     (OutKind.jsonDoc ["success", "device"] true),
   PrintSite.mk "device-open-error" SiteKind.errorDoc
     (OutKind.jsonDoc ["success", "error", "message"] true),
   PrintSite.mk "device-new-error" SiteKind.errorDoc
     (OutKind.jsonDoc ["success", "error", "message"] true),
   optionParseErrorSite,
   PrintSite.mk "no-device-path" SiteKind.errorDoc
     (OutKind.jsonDoc ["success", "error"] true),
   PrintSite.mk "multiple-services-error" SiteKind.errorDoc
     (OutKind.jsonDoc ["success", "error"] true),
   PrintSite.mk "no-actions-error" SiteKind.errorDoc
     (OutKind.jsonDoc ["success", "error"] true)]

/-- Print sites of qmicli-pbm.c. -/
def pbmSites : List PrintSite :=
  [PrintSite.mk "pbm-too-many-actions" SiteKind.errorDoc
     (OutKind.jsonDoc ["success", "error"] true),
   PrintSite.mk "pbm-get-all-capabilities-operation-failed" SiteKind.errorDoc
     (OutKind.jsonDoc ["success", "error", "message"] true),
   PrintSite.mk "pbm-get-all-capabilities-error" SiteKind.errorDoc
     (OutKind.jsonDoc ["success", "error", "message"] true),
   PrintSite.mk "pbm-get-all-capabilities-result" SiteKind.resultDoc
     (OutKind.jsonDoc ["success", "device"] true)]

/-- Print sites of qmicli-nas.c. -/
def nasSites : List PrintSite :=
  [PrintSite.mk "nas-too-many-actions" SiteKind.errorDoc
     (OutKind.jsonDoc ["success", "error"] true),
   PrintSite.mk "nas-get-signal-info-operation-failed" SiteKind.errorDoc
     (OutKind.jsonDoc ["success", "error", "message"] true),
   PrintSite.mk "nas-get-signal-info-error" SiteKind.errorDoc
     (OutKind.jsonDoc ["success", "error", "message"] true),
   PrintSite.mk "nas-get-signal-info-result" SiteKind.resultDoc
     (OutKind.jsonDoc ["success", "device"] true),
   PrintSite.mk "nas-get-signal-strength-input-error" SiteKind.errorDoc
     (OutKind.jsonDoc ["success", "error", "message"] true),
   PrintSite.mk "nas-get-signal-strength-operation-failed" SiteKind.errorDoc
     (OutKind.jsonDoc ["success", "error", "message"] true),
   PrintSite.mk "nas-get-signal-strength-error" SiteKind.errorDoc
     (OutKind.jsonDoc ["success", "error", "message"] true),
   PrintSite.mk "nas-get-signal-strength-result" SiteKind.resultDoc
     (OutKind.jsonDoc ["success", "device", "current"] true),
   PrintSite.mk "nas-get-tx-rx-info-operation-failed" SiteKind.errorDoc
     (OutKind.jsonDoc ["success", "error", "message"] true),
   PrintSite.mk "nas-get-tx-rx-info-error" SiteKind.errorDoc
     (OutKind.jsonDoc ["success", "error", "message"] true),
   PrintSite.mk "nas-get-tx-rx-info-result" SiteKind.resultDoc
     (OutKind.jsonDoc ["success", "device"] true),
   PrintSite.mk "nas-get-tx-rx-info-input-error" SiteKind.errorDoc
     (OutKind.jsonDoc ["success", "error", "message"] true),
   PrintSite.mk "nas-get-home-network-operation-failed" SiteKind.errorDoc
     (OutKind.jsonDoc ["success", "error", "message"] true),
   PrintSite.mk "nas-get-home-network-error" SiteKind.errorDoc
     (OutKind.jsonDoc ["success", "error", "message"] true),
   PrintSite.mk "nas-get-home-network-result" SiteKind.resultDoc
     (OutKind.jsonDoc ["success", "device"] true),
   PrintSite.mk "nas-get-serving-system-operation-failed" SiteKind.errorDoc
     (OutKind.jsonDoc ["success", "error", "message"] true),
   PrintSite.mk "nas-get-serving-system-error" SiteKind.errorDoc
     (OutKind.jsonDoc ["success", "error", "message"] true),
   PrintSite.mk "nas-get-serving-system-result" SiteKind.resultDoc
     (OutKind.jsonDoc ["success", "device"] true),
   PrintSite.mk "nas-get-system-info-operation-failed" SiteKind.errorDoc
     (OutKind.jsonDoc ["success", "error", "message"] true),
   PrintSite.mk "nas-get-system-info-error" SiteKind.errorDoc
     (OutKind.jsonDoc ["success", "error", "message"] true),
   PrintSite.mk "nas-get-system-info-result" SiteKind.resultDoc
     (OutKind.jsonDoc ["success", "device"] true),
   PrintSite.mk "nas-get-technology-preference-operation-failed" SiteKind.errorDoc
     (OutKind.jsonDoc ["success", "error", "message"] true),
   PrintSite.mk "nas-get-technology-preference-error" SiteKind.errorDoc
     (OutKind.jsonDoc ["success", "error", "message"] true),
   PrintSite.mk "nas-get-technology-preference-result" SiteKind.resultDoc
     (OutKind.jsonDoc ["success", "device", "active", "duration"] true),
   PrintSite.mk "nas-get-system-selection-preference-operation-failed"
     SiteKind.errorDoc (OutKind.jsonDoc ["success", "error", "message"] true),
   PrintSite.mk "nas-get-system-selection-preference-error" SiteKind.errorDoc
     (OutKind.jsonDoc ["success", "error", "message"] true),
   PrintSite.mk "nas-get-system-selection-preference-result" SiteKind.resultDoc
     (OutKind.jsonDoc ["success", "device"] true),
   PrintSite.mk "nas-set-system-selection-preference-parse-error" SiteKind.errorDoc
     (OutKind.jsonDoc ["success", "error"] true),
   PrintSite.mk "nas-set-system-selection-preference-input-error-mode"
     SiteKind.errorDoc (OutKind.jsonDoc ["success", "error", "message"] true),
   PrintSite.mk "nas-set-system-selection-preference-input-error-duration"
     SiteKind.errorDoc (OutKind.jsonDoc ["success", "error", "message"] true),
   PrintSite.mk "nas-set-system-selection-preference-input-error-order"
     SiteKind.errorDoc (OutKind.jsonDoc ["success", "error", "message"] true),
   PrintSite.mk "nas-set-system-selection-preference-operation-failed"
     SiteKind.errorDoc (OutKind.jsonDoc ["success", "error", "message"] true),
   PrintSite.mk "nas-set-system-selection-preference-error" SiteKind.errorDoc
     (OutKind.jsonDoc ["success", "error", "message"] true),
   PrintSite.mk "nas-set-system-selection-preference-result" SiteKind.resultDoc
     (OutKind.jsonDoc ["success", "device", "reset required"] true),
   PrintSite.mk "nas-network-scan-operation-failed" SiteKind.errorDoc
     (OutKind.jsonDoc ["success", "error", "message"] true),
   PrintSite.mk "nas-network-scan-error" SiteKind.errorDoc
     (OutKind.jsonDoc ["success", "error", "message"] true),
   PrintSite.mk "nas-network-scan-result" SiteKind.resultDoc
     (OutKind.jsonDoc ["success", "device", "network"] true),
   PrintSite.mk "nas-reset-operation-failed" SiteKind.errorDoc
     (OutKind.jsonDoc ["success", "error", "message"] true),
   PrintSite.mk "nas-reset-error" SiteKind.errorDoc
     (OutKind.jsonDoc ["success", "error", "message"] true),
   PrintSite.mk "nas-reset-result" SiteKind.resultDoc
     (OutKind.jsonDoc ["success", "device", "message"] true)]

def allSites : List PrintSite := mainSites ++ pbmSites ++ nasSites

/-- The flag value a site's json_dumps call receives. -/
def flagsAt (site : PrintSite) (json_flag : Bool) : Nat :=
  match site.out with
  | OutKind.jsonDoc _ true => json_print_flag json_flag
  | _ => JSON_PRESERVE_ORDER + JSON_INDENT 4

/-- A site that prints a JSON document with a success key through the global
json_print_flag. -/
def isGlobalJsonWithSuccess : OutKind → Bool
  | OutKind.jsonDoc keys usesGlobal => usesGlobal && keys.contains "success"
  | OutKind.textDoc => false

/-- Counterexample to claim C8 as stated: the set-instance-id success report is
printed as plain text, not as a JSON document with a success field; and the
option-parse error report is serialized with the hard-coded indented flags, so
with --json it is not compact. -/
theorem C8_counterexample_sites :
    setInstanceIdResultSite ∈ allSites ∧
    setInstanceIdResultSite.kind = SiteKind.resultDoc ∧
    setInstanceIdResultSite.out = OutKind.textDoc ∧
    optionParseErrorSite ∈ allSites ∧
    optionParseErrorSite.kind = SiteKind.errorDoc ∧
    flagsAt optionParseErrorSite true ≠ json_print_flag true := by decide

/-- Claim C8 (amended): every result and error document of the three source
files - except the set-instance-id success report, which is plain text, and the
option-parse error, which always uses the hard-coded indented flags - is a JSON
document containing a "success" field serialized with the global
json_print_flag: order-preserving indented by default and order-preserving
compact when --json is given. -/
theorem C8_json_output_flags (json_flag : Bool) :
    (∀ site ∈ allSites, site.kind ≠ SiteKind.infoText →
       site.name ≠ "set-instance-id-result" → site.name ≠ "option-parse-error" →
       isGlobalJsonWithSuccess site.out = true ∧
       flagsAt site json_flag = json_print_flag json_flag) ∧
    flagsAt optionParseErrorSite json_flag = JSON_PRESERVE_ORDER + JSON_INDENT 4 ∧
    json_print_flag false = JSON_PRESERVE_ORDER + JSON_INDENT 4 ∧
    json_print_flag true = JSON_PRESERVE_ORDER + JSON_COMPACT := by
  cases json_flag <;> decide

theorem C8_json_output_flags_witness :
    isGlobalJsonWithSuccess versionPrintSite.out = true ∧
    flagsAt versionPrintSite true = json_print_flag true :=
  (C8_json_output_flags true).1 versionPrintSite (by decide) (by decide)
    (by decide) (by decide)

end Qmicli
